import Mathlib

/-!
Shallow embedding of the scribble-vk drawing application's core
(`src/app.rs`, `src/types.rs`, `src/config.rs`, `src/vulkan/renderer.rs`,
`src/vulkan/sync.rs`) and proofs about it.

Coordinates are modelled as exact rationals (ℚ) standing for the `f32`
coordinates of the source; the debounce epsilon `1e-3` is modelled as
`1/1000`.  GPU side effects are modelled by recording the issued
buffer-copy commands (`copy_buffer` calls) in the state, in units of
segments (the source multiplies these counts by `size_of::<Line>()` to
obtain byte offsets/sizes).
-/

/-- 2D vector, embedding `cgmath::Vector2<f32>` (`types.rs`: `type Vec2`). -/
structure Vec2 where
  x : ℚ
  y : ℚ
deriving DecidableEq, Repr

def Vec2.add (a b : Vec2) : Vec2 := ⟨a.x + b.x, a.y + b.y⟩

def Vec2.sub (a b : Vec2) : Vec2 := ⟨a.x - b.x, a.y - b.y⟩

/-- Division of a vector by 2, as used in `position + dir / 2.0`. -/
def Vec2.half (a : Vec2) : Vec2 := ⟨a.x / 2, a.y / 2⟩

/-- `cgmath`'s `AbsDiffEq::abs_diff_eq` on `Vector2`: componentwise
`|a - b| <= epsilon`. -/
def Vec2.abs_diff_eq (a b : Vec2) (eps : ℚ) : Prop :=
  |a.x - b.x| ≤ eps ∧ |a.y - b.y| ≤ eps

instance (a b : Vec2) (eps : ℚ) : Decidable (Vec2.abs_diff_eq a b eps) :=
  inferInstanceAs (Decidable (|a.x - b.x| ≤ eps ∧ |a.y - b.y| ≤ eps))

/-- The debounce epsilon of `append_vertex` (the `1e-3` literal in
app.rs:150 and app.rs:156). -/
def EPS : ℚ := 1/1000

/-- A line segment (`types.rs`: `struct Line`): midpoint and direction. -/
structure Line where
  position : Vec2
  dir : Vec2
deriving DecidableEq, Repr

/-- `Line::new(from, to)`: `position = (from + to) / 2`, `dir = to - from`. -/
def Line.new (p q : Vec2) : Line :=
  { position := Vec2.half (Vec2.add p q), dir := Vec2.sub q p }

/-- Reconstructed start point `position - dir / 2`. -/
def Line.startPoint (l : Line) : Vec2 := Vec2.sub l.position (Vec2.half l.dir)

/-- Reconstructed end point `position + dir / 2` (as computed in
`App::append_vertex`: `last_element.position + last_element.dir / 2.0`). -/
def Line.endPoint (l : Line) : Vec2 := Vec2.add l.position (Vec2.half l.dir)

/-- One `copy_buffer` call issued to the GPU (`vulkan/buffer.rs`), in
segment units: the source computes `dst_offset` and `size` as these
counts times `size_of::<Line>()`. -/
structure CopyCmd where
  dst_offset : ℕ
  count : ℕ
deriving DecidableEq, Repr

/-- The configuration fields the core reads (`config.rs`: `VulkanConfig`). -/
structure AppConfig where
  max_vertices : ℕ
  staging_buffer_vertex_count : ℕ
  max_frames_in_flight : ℕ
deriving DecidableEq, Repr

/-- The host-side state of `App` (`app.rs`) that the geometry-log
operations read and write: the anchor `line_start`, committed strokes
`lines`, the pending stroke `new_lines`, plus the trace `copies` of
GPU copy commands issued so far and the loaded `config`. -/
structure App where
  line_start : Option Vec2
  lines : List (List Line)
  new_lines : List Line
  copies : List CopyCmd
  config : AppConfig
deriving DecidableEq, Repr

/-- Initial state built by `App::create`: `lines = vec![vec![]]`,
`new_lines = vec![]`, `line_start = None`. -/
def App.init (cfg : AppConfig) : App :=
  { line_start := none, lines := [[]], new_lines := [], copies := [], config := cfg }

/-- `self.lines.iter().map(|v| v.len()).sum()` — the committed segment
count, called `totalCommittedSegments()` in the spec (inlined in
`App::render` and `App::commit_new_line` as `line_count` /
`current_line_count`). -/
def App.totalCommittedSegments (s : App) : ℕ :=
  (s.lines.map List.length).sum

/-- `App::commit_new_line` (app.rs:173-226).  If the pending stroke is
empty, it only clears `line_start`.  Otherwise it issues a GPU copy of
`lines_to_copy = min(new_lines.len(), staging_buffer_vertex_count)`
segments to offset `totalCommittedSegments()`, then moves those first
`lines_to_copy` pending segments into a new committed stroke; when the
whole pending stroke fits it is committed wholesale and `line_start`
is cleared. -/
def App.commit_new_line (s : App) : App :=
  if s.new_lines = [] then
    { s with line_start := none }
  else
    let lines_to_copy := min s.new_lines.length s.config.staging_buffer_vertex_count
    let copies := s.copies ++ [⟨s.totalCommittedSegments, lines_to_copy⟩]
    if lines_to_copy < s.new_lines.length then
      { s with
        copies := copies
        lines := s.lines ++ [s.new_lines.take lines_to_copy]
        new_lines := s.new_lines.drop lines_to_copy }
    else
      { s with
        copies := copies
        lines := s.lines ++ [s.new_lines]
        new_lines := []
        line_start := none }

/-- The `match self.new_lines.last()` block of `App::append_vertex`
(app.rs:145-164): extend the pending stroke from the reconstructed
endpoint of its last segment (or from the anchor) when the new point is
farther than `1e-3` componentwise; when no segment and no anchor exist
yet, only record the anchor. -/
def App.append_step (p : Vec2) (s : App) : App :=
  match s.new_lines.getLast? with
  | some last_element =>
    let last_end_point := Vec2.add last_element.position (Vec2.half last_element.dir)
    if Vec2.abs_diff_eq last_end_point p EPS then s
    else { s with new_lines := s.new_lines ++ [Line.new last_end_point p] }
  | none =>
    match s.line_start with
    | some line_start =>
      if Vec2.abs_diff_eq line_start p EPS then s
      else { s with new_lines := s.new_lines ++ [Line.new line_start p] }
    | none => { s with line_start := some p }

/-- `App::append_vertex` (app.rs:144-171): the debounced append followed
by the auto-commit once the pending stroke has reached the staging
capacity (`new_lines.len() >= staging_buffer_vertex_count`). -/
def App.append_vertex (p : Vec2) (s : App) : App :=
  let s1 := s.append_step p
  if s1.config.staging_buffer_vertex_count ≤ s1.new_lines.length then
    s1.commit_new_line
  else
    s1

/-- The debounce condition of `append_vertex` in state `s` for point `p`:
`p` is within `1e-3` (componentwise, as `abs_diff_eq` checks) of the
reconstructed endpoint of the last pending segment, or — when the
pending stroke is empty — of the recorded anchor. -/
def App.debounced (s : App) (p : Vec2) : Prop :=
  match s.new_lines.getLast? with
  | some l => Vec2.abs_diff_eq l.endPoint p EPS
  | none =>
    match s.line_start with
    | some a => Vec2.abs_diff_eq a p EPS
    | none => False

/-- `App::undo` (app.rs:228-233): pop the last committed stroke only when
more than the initial placeholder entry exists. -/
def App.undo (s : App) : App :=
  if 1 < s.lines.length then { s with lines := s.lines.dropLast } else s

/-- The `new_line_count` computed in `App::render` (app.rs:105-118): the
number of pending segments streamed into the staging region this frame. -/
def App.new_line_count (s : App) : ℕ :=
  if s.new_lines = [] then 0
  else min s.new_lines.length s.config.staging_buffer_vertex_count

/-- The `line_count` passed by `App::render` to the renderer. -/
def App.line_count (s : App) : ℕ := s.totalCommittedSegments

/-! ## Renderer embedding (`vulkan/renderer.rs`, `vulkan/sync.rs`) -/

/-- `renderer.rs:12`: `const MAX_FRAMES_IN_FLIGHT: usize = 2;` — a
hardcoded constant, independent of the loaded configuration. -/
def MAX_FRAMES_IN_FLIGHT : ℕ := 2

/-- The four vectors built by `create_sync_objects` (`vulkan/sync.rs`),
with handles abstracted to `Unit`; only the loop structure (hence the
lengths) is retained. -/
structure SyncObjects where
  image_available_semaphores : List Unit
  render_finished_semaphores : List Unit
  in_flight_fences : List Unit
  images_in_flight : List Unit
deriving DecidableEq, Repr

/-- `create_sync_objects(device, max_frames_in_flight, swapchain_image_count)`:
one image-available and one render-finished semaphore **per swapchain
image**, one fence per in-flight frame, and an images-in-flight array of
null fences per swapchain image. -/
def create_sync_objects (max_frames_in_flight swapchain_image_count : ℕ) : SyncObjects :=
  { image_available_semaphores := List.replicate swapchain_image_count ()
    render_finished_semaphores := List.replicate swapchain_image_count ()
    in_flight_fences := List.replicate max_frames_in_flight ()
    images_in_flight := List.replicate swapchain_image_count () }

/-- `Renderer::create` calls
`create_sync_objects(&device, MAX_FRAMES_IN_FLIGHT, swapchain_images.len())`
(renderer.rs:93-102): the configuration (`cfg`) is in scope but its
`max_frames_in_flight` field is not consulted. -/
def Renderer.created_sync_objects (cfg : AppConfig) (swapchain_image_count : ℕ) : SyncObjects :=
  let _ := cfg
  create_sync_objects MAX_FRAMES_IN_FLIGHT swapchain_image_count

/-- `self.frame = (self.frame + 1) % MAX_FRAMES_IN_FLIGHT` (renderer.rs:215). -/
def advance_frame (frame : ℕ) : ℕ := (frame + 1) % MAX_FRAMES_IN_FLIGHT

/-- Vulkan error codes as the renderer distinguishes them:
`OUT_OF_DATE_KHR` is matched specially; every other code is opaque. -/
inductive ErrorCode where
  | outOfDateKhr : ErrorCode
  | other : ℕ → ErrorCode
deriving DecidableEq, Repr

/-- Vulkan success codes the renderer distinguishes on present. -/
inductive SuccessCode where
  | success : SuccessCode
  | suboptimalKhr : SuccessCode
deriving DecidableEq, Repr

/-- Outcomes of the fallible device calls made during one
`Renderer::render` invocation, supplied as inputs to the control-flow
embedding.  `record` stands for the calls inside
`update_command_buffer` (reset pool / begin / end), which `?`-propagate
their errors identically. -/
structure RenderInputs where
  wait_fence : Except ErrorCode Unit
  acquire : Except ErrorCode ℕ
  image_busy : Bool
  image_wait : Except ErrorCode Unit
  record : Except ErrorCode Unit
  reset_fences : Except ErrorCode Unit
  submit : Except ErrorCode Unit
  present : Except ErrorCode SuccessCode
  recreate : Except ErrorCode Unit

/-- What one `Renderer::render` call produced: the returned
`Result<bool>` (the bool is `needs_recreate`), whether
`recreate_swapchain` was invoked, and the frame index afterwards. -/
structure RenderOutput where
  result : Except ErrorCode Bool
  recreated : Bool
  frame : ℕ

/-- `Renderer::render` (renderer.rs:125-218), control flow over the
abstracted device-call outcomes: wait on the slot fence; acquire (an
`OUT_OF_DATE_KHR` acquire rebuilds the swapchain and returns
`Ok(false)` without advancing the frame, any other acquire error is
returned); wait on the image's prior fence if busy; record; reset the
fence; submit; present (a `SUBOPTIMAL_KHR` success or `OUT_OF_DATE_KHR`
error rebuilds and returns `Ok(true)`, any other present error is
returned); finally advance the frame index modulo
`MAX_FRAMES_IN_FLIGHT`. -/
def Renderer.render (inp : RenderInputs) (frame : ℕ) : RenderOutput :=
  match inp.wait_fence with
  | .error e => ⟨.error e, false, frame⟩
  | .ok _ =>
    match inp.acquire with
    | .error .outOfDateKhr =>
      (match inp.recreate with
       | .error e => ⟨.error e, true, frame⟩
       | .ok _ => ⟨.ok false, true, frame⟩)
    | .error e => ⟨.error e, false, frame⟩
    | .ok _image_index =>
      match (if inp.image_busy then inp.image_wait else .ok ()) with
      | .error e => ⟨.error e, false, frame⟩
      | .ok _ =>
        match inp.record with
        | .error e => ⟨.error e, false, frame⟩
        | .ok _ =>
          match inp.reset_fences with
          | .error e => ⟨.error e, false, frame⟩
          | .ok _ =>
            match inp.submit with
            | .error e => ⟨.error e, false, frame⟩
            | .ok _ =>
              let changed :=
                match inp.present with
                | .ok .suboptimalKhr => true
                | .error .outOfDateKhr => true
                | _ => false
              if changed then
                match inp.recreate with
                | .error e => ⟨.error e, true, frame⟩
                | .ok _ => ⟨.ok true, true, advance_frame frame⟩
              else
                match inp.present with
                | .error e => ⟨.error e, false, frame⟩
                | .ok _ => ⟨.ok false, false, advance_frame frame⟩

/-- The static background quad (`types.rs`: `RECT`), 10 floats. -/
def RECT : List ℚ := [0, 0, 1.1, -1, 1.1, 1, -1.1, 1, -1.1, -1]

/-- The single draw call recorded by `Renderer::update_command_buffer`
(renderer.rs:285-287): `cmd_draw_indexed(cb, RECT.len(), line_count, 0, 0, 0)`.
Its instance count is exactly the `line_count` parameter the renderer
received; no other count reaches the draw. -/
structure DrawCall where
  index_count : ℕ
  instance_count : ℕ
deriving DecidableEq, Repr

def update_command_buffer_draw (line_count : ℕ) : DrawCall :=
  { index_count := RECT.length, instance_count := line_count }

/-! ## Concrete states used as test inputs -/

/-- The `i`-th unit segment on the x-axis, used to build concrete strokes. -/
def seg (i : ℕ) : Line := Line.new ⟨(i : ℚ), 0⟩ ⟨(i : ℚ) + 1, 0⟩

/-- Staging capacity 4 and a pending stroke of 10 segments (spec scenario 2). -/
def scenario10 : App :=
  { line_start := none
    lines := [[]]
    new_lines := (List.range 10).map seg
    copies := []
    config := ⟨1000, 4, 2⟩ }

/-- A state whose next commit would exceed `max_vertices`:
`max_vertices = 2`, two committed segments, one pending segment. -/
def c2_state : App :=
  { line_start := none
    lines := [[], [seg 0, seg 1]]
    new_lines := [seg 2]
    copies := []
    config := ⟨2, 4, 2⟩ }

/-- Append of `(0,0)`, then `(0,0.002)`, starting from the initial state
(spec scenario 1); `0.002 = 1/500`. -/
def c4_state_b : App :=
  App.append_vertex ⟨0, 1/500⟩ (App.append_vertex ⟨0, 0⟩ (App.init ⟨1000, 4, 2⟩))

/-- `c4_state_b` followed by an append of `(0,0.5)`. -/
def c4_state_c : App :=
  App.append_vertex ⟨0, 1/2⟩ c4_state_b

/-- A state with one committed stroke beyond the placeholder and an empty
pending stroke. -/
def c5_state : App :=
  { line_start := none
    lines := [[], [seg 0]]
    new_lines := []
    copies := []
    config := ⟨1000, 4, 2⟩ }

/-- A state with only the placeholder stroke committed and one pending
segment. -/
def c6_state : App :=
  { line_start := none
    lines := [[]]
    new_lines := [seg 5]
    copies := []
    config := ⟨1000, 4, 2⟩ }

/-- Configuration whose `max_frames_in_flight` differs from the
renderer's hardcoded constant. -/
def c7_config : AppConfig := ⟨1000, 4, 3⟩

/-- A render invocation in which every device call succeeds. -/
def c7_inp : RenderInputs :=
  ⟨Except.ok (), Except.ok 0, false, Except.ok (), Except.ok (), Except.ok (),
   Except.ok (), Except.ok SuccessCode.success, Except.ok ()⟩

/-- State with no committed segments and one pending segment. -/
def c8_state : App :=
  { line_start := none
    lines := [[]]
    new_lines := [seg 0]
    copies := []
    config := ⟨1000, 4, 2⟩ }

/-- Acquire reports the surface out of date. -/
def c9_inp_skip : RenderInputs :=
  ⟨Except.ok (), Except.error ErrorCode.outOfDateKhr, false, Except.ok (), Except.ok (),
   Except.ok (), Except.ok (), Except.ok SuccessCode.success, Except.ok ()⟩

/-- Present reports the swapchain suboptimal. -/
def c9_inp_suboptimal : RenderInputs :=
  ⟨Except.ok (), Except.ok 0, false, Except.ok (), Except.ok (),
   Except.ok (), Except.ok (), Except.ok SuccessCode.suboptimalKhr, Except.ok ()⟩

/-- Acquire fails with a non-out-of-date error code. -/
def c9_inp_acquire_fail : RenderInputs :=
  ⟨Except.ok (), Except.error (ErrorCode.other 7), false, Except.ok (), Except.ok (),
   Except.ok (), Except.ok (), Except.ok SuccessCode.success, Except.ok ()⟩

/-- Submission fails. -/
def c9_inp_submit_fail : RenderInputs :=
  ⟨Except.ok (), Except.ok 0, false, Except.ok (), Except.ok (),
   Except.ok (), Except.error (ErrorCode.other 9), Except.ok SuccessCode.success, Except.ok ()⟩

/-- Present fails with a non-out-of-date error code. -/
def c9_inp_present_fail : RenderInputs :=
  ⟨Except.ok (), Except.ok 0, false, Except.ok (), Except.ok (),
   Except.ok (), Except.ok (), Except.error (ErrorCode.other 11), Except.ok ()⟩


/-! ## Helper lemmas about the geometry-log operations -/

theorem App.commit_empty (s : App) (h : s.new_lines = []) :
    s.commit_new_line = { s with line_start := none } := by
  simp [App.commit_new_line, h]

theorem App.commit_spec (s : App) (h : s.new_lines ≠ []) :
    s.commit_new_line.lines
        = s.lines ++ [s.new_lines.take (min s.new_lines.length s.config.staging_buffer_vertex_count)] ∧
    s.commit_new_line.new_lines
        = s.new_lines.drop (min s.new_lines.length s.config.staging_buffer_vertex_count) ∧
    s.commit_new_line.copies
        = s.copies ++ [⟨s.totalCommittedSegments,
            min s.new_lines.length s.config.staging_buffer_vertex_count⟩] ∧
    s.commit_new_line.config = s.config := by
  by_cases hlt : min s.new_lines.length s.config.staging_buffer_vertex_count < s.new_lines.length
  · simp [App.commit_new_line, h, hlt]
  · have hn : min s.new_lines.length s.config.staging_buffer_vertex_count
        = s.new_lines.length := by omega
    simp [App.commit_new_line, h, hlt, hn]

theorem App.commit_config (s : App) : s.commit_new_line.config = s.config := by
  by_cases h : s.new_lines = []
  · simp [App.commit_empty s h]
  · exact (App.commit_spec s h).2.2.2

theorem App.commit_total (s : App) (h : s.new_lines ≠ []) :
    s.commit_new_line.totalCommittedSegments
      = s.totalCommittedSegments
        + min s.new_lines.length s.config.staging_buffer_vertex_count := by
  obtain ⟨hl, -, -, -⟩ := App.commit_spec s h
  simp [App.totalCommittedSegments, hl, List.length_take]

theorem App.commit_fits (s : App)
    (hle : s.new_lines.length ≤ s.config.staging_buffer_vertex_count) :
    s.commit_new_line.new_lines = [] := by
  by_cases h : s.new_lines = []
  · simp [App.commit_empty s h, h]
  · obtain ⟨-, hn, -, -⟩ := App.commit_spec s h
    rw [hn]
    have hmin : min s.new_lines.length s.config.staging_buffer_vertex_count
        = s.new_lines.length := by omega
    simp [hmin]

theorem App.commit_join (s : App) :
    s.commit_new_line.lines.flatten ++ s.commit_new_line.new_lines
      = s.lines.flatten ++ s.new_lines := by
  by_cases h : s.new_lines = []
  · simp [App.commit_empty s h, h]
  · obtain ⟨hl, hn, -, -⟩ := App.commit_spec s h
    rw [hl, hn]
    simp [List.append_assoc, List.take_append_drop]

theorem App.commit_join_iter (k : ℕ) (s : App) :
    (App.commit_new_line^[k] s).lines.flatten ++ (App.commit_new_line^[k] s).new_lines
      = s.lines.flatten ++ s.new_lines := by
  induction k generalizing s with
  | zero => simp
  | succ k ih =>
    rw [Function.iterate_succ_apply]
    rw [ih s.commit_new_line]
    exact App.commit_join s

theorem App.commit_drain (k : ℕ) (s : App)
    (hc : 1 ≤ s.config.staging_buffer_vertex_count)
    (hl : s.new_lines.length ≤ k) :
    (App.commit_new_line^[k] s).new_lines = [] := by
  induction k generalizing s with
  | zero =>
    simp only [Function.iterate_zero, id]
    exact List.length_eq_zero.mp (Nat.le_zero.mp hl)
  | succ k ih =>
    rw [Function.iterate_succ_apply]
    apply ih
    · rw [App.commit_config]; exact hc
    · by_cases h : s.new_lines = []
      · simp [App.commit_empty s h, h]
      · obtain ⟨-, hn, -, -⟩ := App.commit_spec s h
        rw [hn]
        have hpos : 0 < s.new_lines.length := List.length_pos.mpr h
        simp [List.length_drop]
        omega

theorem App.append_step_config (p : Vec2) (s : App) :
    (s.append_step p).config = s.config := by
  unfold App.append_step
  cases s.new_lines.getLast? with
  | some l => dsimp only; split <;> rfl
  | none =>
    cases s.line_start with
    | some a => dsimp only; split <;> rfl
    | none => rfl

theorem App.append_step_len (p : Vec2) (s : App) :
    (s.append_step p).new_lines.length ≤ s.new_lines.length + 1 := by
  unfold App.append_step
  cases s.new_lines.getLast? with
  | some l => dsimp only; split <;> simp
  | none =>
    cases s.line_start with
    | some a => dsimp only; split <;> simp
    | none => simp

theorem App.undo_lines (s : App) (h : 1 < s.lines.length) :
    (App.undo s).lines = s.lines.dropLast := by
  simp [App.undo, h]

theorem App.undo_eq (s : App) (h : ¬ 1 < s.lines.length) : App.undo s = s := by
  simp [App.undo, h]

theorem App.undo_new_lines (s : App) : (App.undo s).new_lines = s.new_lines := by
  unfold App.undo
  split <;> rfl

/-! ## Claims -/

/-- C1: for a non-empty pending stroke, each `commit_new_line` call moves
exactly `n = min(len(pending), stagingCapacity)` segments from the front
of `pending` into a new committed stroke fragment, preserving order;
each call preserves the concatenation of all segments (no duplication,
reordering, or loss); `len(pending)` many calls drain `pending`
completely with the committed log's flattening extended by exactly the
old pending segments; and concretely, with staging capacity 4 and 10
pending segments, three calls leave 4/8/10 committed segments with
6/2/0 pending. -/
theorem c1_batch_splitting :
    (∀ s : App, s.new_lines ≠ [] →
      s.commit_new_line.lines
          = s.lines
            ++ [s.new_lines.take (min s.new_lines.length s.config.staging_buffer_vertex_count)] ∧
      s.commit_new_line.new_lines
          = s.new_lines.drop (min s.new_lines.length s.config.staging_buffer_vertex_count)) ∧
    (∀ s : App,
      s.commit_new_line.lines.flatten ++ s.commit_new_line.new_lines
        = s.lines.flatten ++ s.new_lines) ∧
    (∀ s : App, 1 ≤ s.config.staging_buffer_vertex_count →
      (App.commit_new_line^[s.new_lines.length] s).new_lines = [] ∧
      (App.commit_new_line^[s.new_lines.length] s).lines.flatten
        = s.lines.flatten ++ s.new_lines) ∧
    (scenario10.commit_new_line.totalCommittedSegments = 4 ∧
     scenario10.commit_new_line.new_lines.length = 6 ∧
     scenario10.commit_new_line.commit_new_line.totalCommittedSegments = 8 ∧
     scenario10.commit_new_line.commit_new_line.new_lines.length = 2 ∧
     scenario10.commit_new_line.commit_new_line.commit_new_line.totalCommittedSegments = 10 ∧
     scenario10.commit_new_line.commit_new_line.commit_new_line.new_lines = []) := by
  refine ⟨fun s h => ⟨(App.commit_spec s h).1, (App.commit_spec s h).2.1⟩,
    App.commit_join, fun s hc => ?_, by decide⟩
  have h1 := App.commit_drain s.new_lines.length s hc le_rfl
  have h2 := App.commit_join_iter s.new_lines.length s
  rw [h1] at h2
  simpa [h1] using h2

theorem c1_batch_splitting_witness :
    (scenario10.new_lines ≠ [] ∧
     scenario10.commit_new_line.lines
        = scenario10.lines
          ++ [scenario10.new_lines.take
                (min scenario10.new_lines.length scenario10.config.staging_buffer_vertex_count)] ∧
     scenario10.commit_new_line.new_lines
        = scenario10.new_lines.drop
            (min scenario10.new_lines.length scenario10.config.staging_buffer_vertex_count)) ∧
    (1 ≤ scenario10.config.staging_buffer_vertex_count ∧
     (App.commit_new_line^[scenario10.new_lines.length] scenario10).new_lines = []) :=
  ⟨⟨by decide, (c1_batch_splitting.1 scenario10 (by decide)).1,
    (c1_batch_splitting.1 scenario10 (by decide)).2⟩,
   ⟨by decide, (c1_batch_splitting.2.2.1 scenario10 (by decide)).1⟩⟩

/-- C2 counterexample: `commit_new_line` has no capacity check against
`max_vertices`.  At `c2_state` the pending copy makes the committed
total exceed `max_vertices = 2`, yet the commit proceeds: it issues the
GPU copy (`copies` grows) and mutates `pending`, instead of raising a
capacity-exceeded error and leaving both unchanged. -/
theorem c2_capacity_guard_counterexample :
    c2_state.config.max_vertices
      < c2_state.totalCommittedSegments
        + min c2_state.new_lines.length c2_state.config.staging_buffer_vertex_count ∧
    c2_state.commit_new_line.new_lines ≠ c2_state.new_lines ∧
    c2_state.commit_new_line.copies ≠ c2_state.copies ∧
    c2_state.config.max_vertices < c2_state.commit_new_line.totalCommittedSegments := by
  decide

/-- C2 amended: `commit_new_line` performs no capacity check; even when
`totalCommittedSegments() + n > max_vertices` it issues the copy (of
`n = min(len(pending), stagingCapacity)` segments at offset
`totalCommittedSegments()`) and moves the segments, so the committed
total exceeds `max_vertices` afterwards; no error is raised (the
operation is total). -/
theorem c2_capacity_guard_amended :
    ∀ s : App, s.new_lines ≠ [] →
      s.config.max_vertices
        < s.totalCommittedSegments
          + min s.new_lines.length s.config.staging_buffer_vertex_count →
      s.commit_new_line.copies
          = s.copies
            ++ [⟨s.totalCommittedSegments,
                  min s.new_lines.length s.config.staging_buffer_vertex_count⟩] ∧
      s.commit_new_line.totalCommittedSegments
          = s.totalCommittedSegments
            + min s.new_lines.length s.config.staging_buffer_vertex_count ∧
      s.config.max_vertices < s.commit_new_line.totalCommittedSegments := by
  intro s h hover
  refine ⟨(App.commit_spec s h).2.2.1, App.commit_total s h, ?_⟩
  rw [App.commit_total s h]
  exact hover

theorem c2_capacity_guard_amended_witness :
    c2_state.new_lines ≠ [] ∧
    c2_state.config.max_vertices
      < c2_state.totalCommittedSegments
        + min c2_state.new_lines.length c2_state.config.staging_buffer_vertex_count ∧
    c2_state.config.max_vertices < c2_state.commit_new_line.totalCommittedSegments :=
  ⟨by decide, by decide,
   (c2_capacity_guard_amended c2_state (by decide) (by decide)).2.2⟩

theorem c4_eval_b :
    c4_state_b
      = { line_start := some ⟨0, 0⟩
          lines := [[]]
          new_lines := [Line.new ⟨0, 0⟩ ⟨0, 1/500⟩]
          copies := []
          config := ⟨1000, 4, 2⟩ } := by
  unfold c4_state_b
  norm_num [App.append_vertex, App.append_step, App.init, Vec2.abs_diff_eq, EPS,
    abs_of_nonneg]

theorem c4_eval_c :
    c4_state_c
      = { line_start := some ⟨0, 0⟩
          lines := [[]]
          new_lines := [Line.new ⟨0, 0⟩ ⟨0, 1/500⟩, Line.new ⟨0, 1/500⟩ ⟨0, 1/2⟩]
          copies := []
          config := ⟨1000, 4, 2⟩ } := by
  unfold c4_state_c
  rw [c4_eval_b]
  norm_num [App.append_vertex, App.append_step, Vec2.abs_diff_eq, EPS,
    Line.new, Vec2.add, Vec2.sub, Vec2.half, abs_of_nonneg]

/-- C4 counterexample: appending `(0,0)` then `(0,0.002)` from the
initial state leaves ONE pending segment (0.002 exceeds the `1e-3`
epsilon), not zero; the subsequent append of `(0,0.5)` yields TWO
pending segments, not one. -/
theorem c4_scenario_counterexample :
    c4_state_b.new_lines.length = 1 ∧ c4_state_b.new_lines.length ≠ 0 ∧
    c4_state_c.new_lines.length = 2 ∧ c4_state_c.new_lines.length ≠ 1 := by
  rw [c4_eval_b, c4_eval_c]
  norm_num

/-- C4 amended: since the distance `0.002` exceeds the `1e-3` epsilon,
appending `(0,0)` then `(0,0.002)` leaves exactly one pending segment
with reconstructed endpoints `(0,0)` and `(0,0.002)`; the subsequent
append of `(0,0.5)` adds a second segment with reconstructed endpoints
`(0,0.002)` and `(0,0.5)`. -/
theorem c4_scenario_amended :
    c4_state_b.new_lines.map (fun l => (l.startPoint, l.endPoint))
        = [(⟨0, 0⟩, ⟨0, 1/500⟩)] ∧
    c4_state_c.new_lines.map (fun l => (l.startPoint, l.endPoint))
        = [(⟨0, 0⟩, ⟨0, 1/500⟩), (⟨0, 1/500⟩, ⟨0, 1/2⟩)] := by
  rw [c4_eval_b, c4_eval_c]
  norm_num [Line.startPoint, Line.endPoint, Line.new, Vec2.add, Vec2.sub, Vec2.half]

/-- C5 counterexample: with an empty pending stroke and one committed
stroke beyond the placeholder, `commit_new_line` commits nothing and the
following `undo` removes the pre-existing stroke, so the committed total
is NOT restored. -/
theorem c5_commit_undo_counterexample :
    (App.undo c5_state.commit_new_line).totalCommittedSegments
      ≠ c5_state.totalCommittedSegments := by
  decide

/-- C5 amended: provided the pending stroke is non-empty (so the commit
actually appends a stroke) and the committed list holds at least the
placeholder entry, `commit_new_line` immediately followed by `undo`
restores `totalCommittedSegments()` to its value before the commit. -/
theorem c5_commit_undo_amended :
    ∀ s : App, s.new_lines ≠ [] → s.lines ≠ [] →
      (App.undo s.commit_new_line).totalCommittedSegments
        = s.totalCommittedSegments := by
  intro s h hl
  obtain ⟨hlines, -, -, -⟩ := App.commit_spec s h
  have h2 : 1 < s.commit_new_line.lines.length := by
    rw [hlines]
    simp only [List.length_append, List.length_cons, List.length_nil]
    have := List.length_pos.mpr hl
    omega
  have h3 : (App.undo s.commit_new_line).lines = s.lines := by
    rw [App.undo_lines _ h2, hlines]
    exact List.dropLast_concat
  simp [App.totalCommittedSegments, h3]

theorem c5_commit_undo_amended_witness :
    c6_state.new_lines ≠ [] ∧ c6_state.lines ≠ [] ∧
    (App.undo c6_state.commit_new_line).totalCommittedSegments
      = c6_state.totalCommittedSegments :=
  ⟨by decide, by decide, c5_commit_undo_amended c6_state (by decide) (by decide)⟩

/-- C6: `undo` removes the last committed stroke exactly when the list
has more entries than the placeholder (`length > 1`); with only the
placeholder it is a no-op leaving `totalCommittedSegments()` unchanged;
and `undo` never modifies the pending stroke. -/
theorem c6_undo_semantics :
    ∀ s : App,
      (App.undo s).new_lines = s.new_lines ∧
      (1 < s.lines.length → (App.undo s).lines = s.lines.dropLast) ∧
      (¬ 1 < s.lines.length → App.undo s = s) ∧
      (s.lines = [[]] →
        App.undo s = s ∧
        (App.undo s).totalCommittedSegments = s.totalCommittedSegments) := by
  intro s
  refine ⟨App.undo_new_lines s, fun h => App.undo_lines s h, fun h => App.undo_eq s h,
    fun h => ?_⟩
  have hn : ¬ 1 < s.lines.length := by rw [h]; simp
  exact ⟨App.undo_eq s hn, by rw [App.undo_eq s hn]⟩

theorem c6_undo_semantics_witness :
    ((App.undo c6_state).new_lines = c6_state.new_lines) ∧
    (¬ 1 < c6_state.lines.length) ∧
    App.undo c6_state = c6_state ∧
    (App.undo c5_state).lines = c5_state.lines.dropLast :=
  ⟨(c6_undo_semantics c6_state).1, by decide,
   ((c6_undo_semantics c6_state).2.2.2 (by decide)).1,
   (c6_undo_semantics c5_state).2.1 (by decide)⟩

theorem c3_eval :
    App.append_vertex ⟨0, 0⟩ (App.init ⟨1000, 4, 2⟩)
      = { line_start := some ⟨0, 0⟩
          lines := [[]]
          new_lines := []
          copies := []
          config := ⟨1000, 4, 2⟩ } := by
  norm_num [App.append_vertex, App.append_step, App.init]

/-- C3: if the second point is within `1e-3` of the reconstructed
endpoint of the last pending segment (or, with empty pending stroke, of
the anchor) after the first `append_vertex` call — the debounce case —
then the second `append_vertex` call adds no segment and leaves the
state exactly as after the first call.  (The `abs_diff_eq` closeness of
`p1` and `p2` is recorded as in the claim; componentwise closeness is
implied by Euclidean distance `≤ 1e-3`.) -/
theorem c3_debounce_idempotent :
    ∀ (s : App) (p1 p2 : Vec2),
      Vec2.abs_diff_eq p1 p2 EPS →
      (App.append_vertex p1 s).new_lines.length
          < (App.append_vertex p1 s).config.staging_buffer_vertex_count →
      App.debounced (App.append_vertex p1 s) p2 →
      App.append_vertex p2 (App.append_vertex p1 s) = App.append_vertex p1 s := by
  intro s p1 p2 _hclose hlen hdeb
  set s1 := App.append_vertex p1 s with hs1
  have hstep : s1.append_step p2 = s1 := by
    unfold App.debounced at hdeb
    unfold App.append_step
    cases hg : s1.new_lines.getLast? with
    | some l =>
      simp only [hg] at hdeb
      have hdeb' : Vec2.abs_diff_eq (Vec2.add l.position (Vec2.half l.dir)) p2 EPS := hdeb
      simp only [hg]
      rw [if_pos hdeb']
    | none =>
      simp only [hg] at hdeb
      cases hb : s1.line_start with
      | some a =>
        simp only [hb] at hdeb
        simp only [hb]
        rw [if_pos hdeb]
      | none => simp only [hb] at hdeb
  simp only [App.append_vertex]
  rw [hstep, if_neg (by omega)]

theorem c3_debounce_idempotent_witness :
    Vec2.abs_diff_eq ⟨0, 0⟩ ⟨0, 1/1000⟩ EPS ∧
    (App.append_vertex ⟨0, 0⟩ (App.init ⟨1000, 4, 2⟩)).new_lines.length
        < (App.append_vertex ⟨0, 0⟩ (App.init ⟨1000, 4, 2⟩)).config.staging_buffer_vertex_count ∧
    App.debounced (App.append_vertex ⟨0, 0⟩ (App.init ⟨1000, 4, 2⟩)) ⟨0, 1/1000⟩ ∧
    App.append_vertex ⟨0, 1/1000⟩ (App.append_vertex ⟨0, 0⟩ (App.init ⟨1000, 4, 2⟩))
        = App.append_vertex ⟨0, 0⟩ (App.init ⟨1000, 4, 2⟩) :=
  ⟨by norm_num [Vec2.abs_diff_eq, EPS, abs_of_nonneg],
   by rw [c3_eval]; norm_num,
   by rw [c3_eval]; norm_num [App.debounced, Vec2.abs_diff_eq, EPS, abs_of_nonneg],
   c3_debounce_idempotent (App.init ⟨1000, 4, 2⟩) ⟨0, 0⟩ ⟨0, 1/1000⟩
     (by norm_num [Vec2.abs_diff_eq, EPS, abs_of_nonneg])
     (by rw [c3_eval]; norm_num)
     (by rw [c3_eval]; norm_num [App.debounced, Vec2.abs_diff_eq, EPS, abs_of_nonneg])⟩

/-- C10: provided the staging capacity is at least 1 and the pending
stroke was strictly below capacity before the call, it is again strictly
below capacity after `append_vertex` returns — the auto-commit drains
`pending` completely the moment it reaches the capacity. -/
theorem c10_pending_below_capacity :
    ∀ (s : App) (p : Vec2),
      1 ≤ s.config.staging_buffer_vertex_count →
      s.new_lines.length < s.config.staging_buffer_vertex_count →
      (App.append_vertex p s).new_lines.length < s.config.staging_buffer_vertex_count := by
  intro s p hc hinv
  have hcfg := App.append_step_config p s
  have hstep := App.append_step_len p s
  simp only [App.append_vertex]
  by_cases hge : (s.append_step p).config.staging_buffer_vertex_count
      ≤ (s.append_step p).new_lines.length
  · rw [if_pos hge]
    have hle : (s.append_step p).new_lines.length
        ≤ (s.append_step p).config.staging_buffer_vertex_count := by
      rw [hcfg]; omega
    rw [App.commit_fits (s.append_step p) hle]
    simp only [List.length_nil]
    omega
  · rw [if_neg hge]
    rw [hcfg] at hge
    omega

theorem c10_pending_below_capacity_witness :
    1 ≤ (App.init ⟨1000, 4, 2⟩).config.staging_buffer_vertex_count ∧
    (App.init ⟨1000, 4, 2⟩).new_lines.length
        < (App.init ⟨1000, 4, 2⟩).config.staging_buffer_vertex_count ∧
    (App.append_vertex ⟨0, 0⟩ (App.init ⟨1000, 4, 2⟩)).new_lines.length
        < (App.init ⟨1000, 4, 2⟩).config.staging_buffer_vertex_count :=
  ⟨by decide, by decide,
   c10_pending_below_capacity (App.init ⟨1000, 4, 2⟩) ⟨0, 0⟩ (by decide) (by decide)⟩

/-- Every `Renderer::render` call either returns an error, or was the
acquire-out-of-date skip path, or advanced the frame index by one modulo
`MAX_FRAMES_IN_FLIGHT`. -/
theorem Renderer.render_cases (inp : RenderInputs) (f : ℕ) :
    (∃ e, (Renderer.render inp f).result = Except.error e) ∨
    inp.acquire = Except.error ErrorCode.outOfDateKhr ∨
    (Renderer.render inp f).frame = (f + 1) % MAX_FRAMES_IN_FLIGHT := by
  unfold Renderer.render
  cases inp.wait_fence with
  | error e => exact Or.inl ⟨e, rfl⟩
  | ok u =>
    cases ha : inp.acquire with
    | error ec =>
      cases ec with
      | outOfDateKhr =>
        cases inp.recreate with
        | error e => exact Or.inl ⟨e, rfl⟩
        | ok v => exact Or.inr (Or.inl rfl)
      | other n => exact Or.inl ⟨ErrorCode.other n, rfl⟩
    | ok i =>
      cases (if inp.image_busy then inp.image_wait else Except.ok ()) with
      | error e => exact Or.inl ⟨e, rfl⟩
      | ok v =>
        cases inp.record with
        | error e => exact Or.inl ⟨e, rfl⟩
        | ok w =>
          cases inp.reset_fences with
          | error e => exact Or.inl ⟨e, rfl⟩
          | ok x =>
            cases inp.submit with
            | error e => exact Or.inl ⟨e, rfl⟩
            | ok y =>
              cases inp.present with
              | ok sc =>
                cases sc with
                | success => exact Or.inr (Or.inr rfl)
                | suboptimalKhr =>
                  cases inp.recreate with
                  | error e => exact Or.inl ⟨e, rfl⟩
                  | ok z => exact Or.inr (Or.inr rfl)
              | error ec =>
                cases ec with
                | outOfDateKhr =>
                  cases inp.recreate with
                  | error e => exact Or.inl ⟨e, rfl⟩
                  | ok z => exact Or.inr (Or.inr rfl)
                | other n => exact Or.inl ⟨ErrorCode.other n, rfl⟩

/-- C7 counterexample: with configured `max_frames_in_flight = 3` and 4
swapchain images, the renderer creates 2 in-flight fences (the hardcoded
`MAX_FRAMES_IN_FLIGHT`, ignoring the configuration) and one semaphore
pair per swapchain image (4), none equal to the configured 3; and the
frame index advances modulo 2, not modulo the configured count. -/
theorem c7_frame_slots_counterexample :
    (Renderer.created_sync_objects c7_config 4).in_flight_fences.length
        ≠ c7_config.max_frames_in_flight ∧
    (Renderer.created_sync_objects c7_config 4).image_available_semaphores.length
        ≠ c7_config.max_frames_in_flight ∧
    (Renderer.created_sync_objects c7_config 4).render_finished_semaphores.length
        ≠ c7_config.max_frames_in_flight ∧
    advance_frame 1 ≠ (1 + 1) % c7_config.max_frames_in_flight := by
  decide

/-- C7 amended: the in-flight fence count equals the hardcoded
`MAX_FRAMES_IN_FLIGHT = 2`, regardless of the configured
`vulkan.max_frames_in_flight`; the image-available and render-finished
semaphores (and the images-in-flight slots) are allocated one per
swapchain image, not per frame slot; and after every successfully
rendered (non-skipped) frame the frame slot index advances by one
modulo `MAX_FRAMES_IN_FLIGHT`. -/
theorem c7_frame_slots_amended :
    (∀ (cfg : AppConfig) (n : ℕ),
      (Renderer.created_sync_objects cfg n).in_flight_fences.length = MAX_FRAMES_IN_FLIGHT ∧
      (Renderer.created_sync_objects cfg n).image_available_semaphores.length = n ∧
      (Renderer.created_sync_objects cfg n).render_finished_semaphores.length = n ∧
      (Renderer.created_sync_objects cfg n).images_in_flight.length = n) ∧
    MAX_FRAMES_IN_FLIGHT = 2 ∧
    (∀ (inp : RenderInputs) (f : ℕ) (b : Bool),
      inp.acquire ≠ Except.error ErrorCode.outOfDateKhr →
      (Renderer.render inp f).result = Except.ok b →
      (Renderer.render inp f).frame = (f + 1) % MAX_FRAMES_IN_FLIGHT) := by
  refine ⟨fun cfg n => by simp [Renderer.created_sync_objects, create_sync_objects], rfl, ?_⟩
  intro inp f b hacq hres
  rcases Renderer.render_cases inp f with ⟨e, he⟩ | h | h
  · rw [he] at hres; cases hres
  · exact absurd h hacq
  · exact h

theorem c7_frame_slots_amended_witness :
    ((Renderer.created_sync_objects ⟨1000, 4, 3⟩ 4).in_flight_fences.length
        = MAX_FRAMES_IN_FLIGHT) ∧
    (c7_inp.acquire ≠ Except.error ErrorCode.outOfDateKhr) ∧
    ((Renderer.render c7_inp 0).result = Except.ok false) ∧
    ((Renderer.render c7_inp 0).frame = (0 + 1) % MAX_FRAMES_IN_FLIGHT) :=
  ⟨(c7_frame_slots_amended.1 ⟨1000, 4, 3⟩ 4).1, by simp [c7_inp], rfl,
   c7_frame_slots_amended.2.2 c7_inp 0 false (by simp [c7_inp]) rfl⟩

/-- C8 evidence: at `c8_state`, `App::render` computes `line_count = 0`
committed segments and `new_line_count = 1` streamed pending segments,
but the draw recorded by `Renderer::update_command_buffer`
(renderer.rs:287) uses an instance count equal to its `line_count`
parameter alone, so 0 instances are drawn where the claim requires
`0 + 1 = 1`.  (`App::render` passes both counts, but
`Renderer::render`'s 8-parameter signature accepts only `line_count`,
so the two files do not even type-check together.) -/
theorem c8_draw_instance_count_mismatch :
    (update_command_buffer_draw (App.line_count c8_state)).instance_count = 0 ∧
    App.line_count c8_state + App.new_line_count c8_state = 1 ∧
    (update_command_buffer_draw (App.line_count c8_state)).instance_count
      ≠ App.line_count c8_state + App.new_line_count c8_state := by
  decide

/-- C9: transient swapchain conditions are recovered inside `render`,
everything else propagates: (1) an `OUT_OF_DATE_KHR` acquire rebuilds
the swapchain and skips the frame, returning success; (2) a
`SUBOPTIMAL_KHR` or `OUT_OF_DATE_KHR` present outcome rebuilds and
returns success; (3) any other acquire error is returned; (4) a submit
error is returned; (5) any other present error is returned. -/
theorem c9_swapchain_error_policy :
    (∀ (inp : RenderInputs) (f : ℕ),
      inp.wait_fence = Except.ok () →
      inp.acquire = Except.error ErrorCode.outOfDateKhr →
      inp.recreate = Except.ok () →
      Renderer.render inp f = ⟨Except.ok false, true, f⟩) ∧
    (∀ (inp : RenderInputs) (f i : ℕ),
      inp.wait_fence = Except.ok () → inp.acquire = Except.ok i →
      inp.image_busy = false → inp.record = Except.ok () →
      inp.reset_fences = Except.ok () → inp.submit = Except.ok () →
      (inp.present = Except.ok SuccessCode.suboptimalKhr ∨
       inp.present = Except.error ErrorCode.outOfDateKhr) →
      inp.recreate = Except.ok () →
      (Renderer.render inp f).result = Except.ok true ∧
      (Renderer.render inp f).recreated = true) ∧
    (∀ (inp : RenderInputs) (f n : ℕ),
      inp.wait_fence = Except.ok () →
      inp.acquire = Except.error (ErrorCode.other n) →
      (Renderer.render inp f).result = Except.error (ErrorCode.other n)) ∧
    (∀ (inp : RenderInputs) (f i : ℕ) (e : ErrorCode),
      inp.wait_fence = Except.ok () → inp.acquire = Except.ok i →
      inp.image_busy = false → inp.record = Except.ok () →
      inp.reset_fences = Except.ok () → inp.submit = Except.error e →
      (Renderer.render inp f).result = Except.error e) ∧
    (∀ (inp : RenderInputs) (f i n : ℕ),
      inp.wait_fence = Except.ok () → inp.acquire = Except.ok i →
      inp.image_busy = false → inp.record = Except.ok () →
      inp.reset_fences = Except.ok () → inp.submit = Except.ok () →
      inp.present = Except.error (ErrorCode.other n) →
      (Renderer.render inp f).result = Except.error (ErrorCode.other n)) := by
  refine ⟨?_, ?_, ?_, ?_, ?_⟩
  · intro inp f hw ha hr
    simp [Renderer.render, hw, ha, hr]
  · intro inp f i hw ha hb hrec hrf hs hp hr
    rcases hp with hp | hp <;>
      simp [Renderer.render, hw, ha, hb, hrec, hrf, hs, hp, hr]
  · intro inp f n hw ha
    simp [Renderer.render, hw, ha]
  · intro inp f i e hw ha hb hrec hrf hs
    simp [Renderer.render, hw, ha, hb, hrec, hrf, hs]
  · intro inp f i n hw ha hb hrec hrf hs hp
    simp [Renderer.render, hw, ha, hb, hrec, hrf, hs, hp]

theorem c9_swapchain_error_policy_witness :
    (Renderer.render c9_inp_skip 0 = ⟨Except.ok false, true, 0⟩) ∧
    ((Renderer.render c9_inp_suboptimal 0).result = Except.ok true ∧
     (Renderer.render c9_inp_suboptimal 0).recreated = true) ∧
    ((Renderer.render c9_inp_acquire_fail 0).result = Except.error (ErrorCode.other 7)) ∧
    ((Renderer.render c9_inp_submit_fail 0).result = Except.error (ErrorCode.other 9)) ∧
    ((Renderer.render c9_inp_present_fail 0).result = Except.error (ErrorCode.other 11)) :=
  ⟨c9_swapchain_error_policy.1 c9_inp_skip 0 rfl rfl rfl,
   c9_swapchain_error_policy.2.1 c9_inp_suboptimal 0 0 rfl rfl rfl rfl rfl rfl
     (Or.inl rfl) rfl,
   c9_swapchain_error_policy.2.2.1 c9_inp_acquire_fail 0 7 rfl rfl,
   c9_swapchain_error_policy.2.2.2.1 c9_inp_submit_fail 0 0 (ErrorCode.other 9)
     rfl rfl rfl rfl rfl rfl,
   c9_swapchain_error_policy.2.2.2.2 c9_inp_present_fail 0 0 11
     rfl rfl rfl rfl rfl rfl rfl⟩
